import Mathlib

/-!
# Shallow embedding of `breda-app-template` (`src/lib.rs`)

The repository is a single-crate application template: `init_streaming_system`
(lib.rs:49-74) gates startup on the streaming system reporting the shader
database ready, and `internal_main` (lib.rs:76-305) runs a render closure that

* builds a BLAS/TLAS pair once at startup with one shared scratch buffer sized
  `u64::max(blas_scratch, tlas_scratch)` (lib.rs:151-208),
* then loops over frame events, each iteration building a `RenderGraph` from a
  threaded `RenderGraphPersistentStore`, declaring one raster pass, compiling,
  executing, releasing the store, submitting with swapchain sync plus the
  render-graph signal fence, and presenting (lib.rs:212-300).

External collaborators (the `breda` device, streaming system, render-graph
engine, windowing layer) are modelled as oracles: structures of plain data and
response functions supplied by the environment.  The application code itself
(control flow, the order of calls, what it passes where, `?` propagation and
`unwrap` panics) is embedded faithfully, function by function.
-/

/-- Load policy of a render target on pass entry (`breda::renderer::LoadOp`). -/
inductive LoadOp where
  | Discard
  | Load
deriving DecidableEq, Repr

/-- Store policy of a render target on pass exit (`breda::renderer::StoreOp`). -/
inductive StoreOp where
  | Store
  | DontCare
deriving DecidableEq, Repr

/-- Size requirements reported by the device for an acceleration-structure
build request (`build_info.size_requirements()`). -/
structure SizeRequirements where
  scratch_size_in_bytes : Nat
  result_size_in_bytes : Nat
deriving DecidableEq, Repr

/-- The build-info attached to a BLAS/TLAS build request; only its size
requirements are consumed by the template. -/
structure AccelerationStructureBuildInfo where
  sizeReq : SizeRequirements
deriving DecidableEq, Repr

def AccelerationStructureBuildInfo.size_requirements
    (b : AccelerationStructureBuildInfo) : SizeRequirements := b.sizeReq

/-- A GPU buffer as the template observes it: the name and byte size it was
created with (`Device::create_buffer`). -/
structure Buffer where
  name : String
  size_in_bytes : Nat
deriving DecidableEq, Repr

/-- A BLAS build request (`device.create_blas_build_request`): the BLAS object
(an opaque id here) plus its build info. -/
structure BlasBuildRequest where
  blas : Nat
  build_info : AccelerationStructureBuildInfo
deriving DecidableEq, Repr

/-- A TLAS build request (`device.create_tlas_build_request_from_instances`):
the TLAS object (an opaque id here) plus its build info. -/
structure TlasBuildRequest where
  tlas : Nat
  build_info : AccelerationStructureBuildInfo
deriving DecidableEq, Repr

/-- Device oracle: the driver-reported scratch/result sizes for the BLAS and
TLAS build requests of lib.rs:155 and lib.rs:174, plus opaque ids for the
created acceleration structures.  Everything else the device does (geometry
creation, queue access) is uninterpreted. -/
structure Device where
  blasScratchSize : Nat
  blasResultSize : Nat
  tlasScratchSize : Nat
  tlasResultSize : Nat
  blasId : Nat
  tlasId : Nat
deriving DecidableEq, Repr

def Device.create_blas_build_request (d : Device) : BlasBuildRequest :=
  ⟨d.blasId, ⟨⟨d.blasScratchSize, d.blasResultSize⟩⟩⟩

def Device.create_tlas_build_request_from_instances (d : Device) : TlasBuildRequest :=
  ⟨d.tlasId, ⟨⟨d.tlasScratchSize, d.tlasResultSize⟩⟩⟩

def Device.create_buffer (_d : Device) (name : String) (size : Nat) : Buffer :=
  ⟨name, size⟩

/-- One command recorded inside an acceleration-structure encoder scope
(lib.rs:196-200). -/
inductive ASCmd where
  | batchBuildBlas (requestCount : Nat) (scratch : Buffer)
  | buildTlas (scratch : Buffer)
deriving DecidableEq, Repr

/-- One command recorded into a command buffer. -/
inductive CmdTok where
  | asScope (cmds : List ASCmd)
  | rgExec (passCount : Nat)
  | eguiDraw
deriving DecidableEq, Repr

/-- A command buffer is the sequence of commands recorded into it. -/
abbrev CommandBuffer := List CmdTok

/-- Modelled from the spec: the per-frame swapchain sync primitive.  The
`breda` type behind `swapchain_sync` is external to this repository; spec
section 4.4 (steps 8-9) describes it as carrying the acquire semaphore the
submission waits on and the present semaphore it signals. -/
structure SwapchainSync where
  acquireSemaphore : Nat
  presentSemaphore : Nat
deriving DecidableEq, Repr

/-- The signal fence returned by `CompiledRenderGraph::execute`
(lib.rs:283); it guards the persistent store the executed graph used. -/
structure SignalFence where
  guardsStoreId : Nat
deriving DecidableEq, Repr

/-- Modelled from the spec: `breda::renderer::QueueSubmitInfo` is external to
this repository; spec sections 4.1 and 4.4 describe its constructors as:
no sync at all for the startup build, and wait-on-acquire / signal-present
for the per-frame swapchain submit, optionally extended with the render
graph's signal fence. -/
structure QueueSubmitInfo where
  waitSemaphores : List Nat
  signalSemaphores : List Nat
  renderGraphSignalFence : Option SignalFence
deriving DecidableEq, Repr

/-- Modelled from the spec: `QueueSubmitInfo::no_sync()` (lib.rs:207) submits
with no semaphores and no fence ("Submit once, block (wait-for-idle)"). -/
def QueueSubmitInfo.no_sync : QueueSubmitInfo :=
  ⟨[], [], none⟩

/-- Modelled from the spec: `QueueSubmitInfo::swapchain_only_sync(sync)`
(lib.rs:295) waits on the acquire semaphore and signals the present
semaphore of the frame's swapchain sync primitive (spec 4.4 step 8). -/
def QueueSubmitInfo.swapchain_only_sync (s : SwapchainSync) : QueueSubmitInfo :=
  ⟨[s.acquireSemaphore], [s.presentSemaphore], none⟩

/-- Modelled from the spec: `.with_render_graph_signal_fence(f)` (lib.rs:296)
additionally attaches the render graph's own signal fence. -/
def QueueSubmitInfo.with_render_graph_signal_fence
    (i : QueueSubmitInfo) (f : SignalFence) : QueueSubmitInfo :=
  { i with renderGraphSignalFence := some f }

/-- One operation issued to the GPU queue / swapchain, in program order. -/
inductive GpuOp where
  | submit (cmds : List CommandBuffer) (info : QueueSubmitInfo)
  | waitIdle
  | present (presentIdx : Nat) (sync : Option SwapchainSync) (status : Nat)
deriving DecidableEq, Repr

/-- The cross-frame render-graph store (`RenderGraphPersistentStore`,
lib.rs:107).  It carries an identity so that the handoff discipline (moved
into each session, released back, handed to the next) is observable. -/
structure RenderGraphPersistentStore where
  id : Nat
deriving DecidableEq, Repr

def RenderGraphPersistentStore.new (_device : Nat) : RenderGraphPersistentStore :=
  ⟨0⟩

/-- One raster pass as declared through the builder chain of lib.rs:240-243. -/
structure RasterPassDesc where
  name : String
  renderTarget : Option (Nat × LoadOp × StoreOp)
  tlasBinding : Option Nat
  drawCall : Option (Nat × Nat × Nat)
deriving DecidableEq, Repr

/-- The per-frame render graph (`RenderGraph::new(store, size)`,
lib.rs:232-233): it owns the persistent store for the duration of the session
and records imported resources and declared passes. -/
structure RenderGraph where
  store : RenderGraphPersistentStore
  size : Nat × Nat
  importedTextures : List Nat
  importedTlases : List Nat
  passes : List RasterPassDesc
deriving DecidableEq, Repr

def RenderGraph.new (store : RenderGraphPersistentStore) (size : Nat × Nat) :
    RenderGraph :=
  ⟨store, size, [], [], []⟩

/-- `render_graph.import_texture(&image)` (lib.rs:236): registers the external
texture and returns its graph node (the texture id itself in this model). -/
def RenderGraph.import_texture (rg : RenderGraph) (tex : Nat) :
    RenderGraph × Nat :=
  ({ rg with importedTextures := rg.importedTextures ++ [tex] }, tex)

/-- `render_graph.import_tlas(&tlas)` (lib.rs:238). -/
def RenderGraph.import_tlas (rg : RenderGraph) (tlas : Nat) :
    RenderGraph × Nat :=
  ({ rg with importedTlases := rg.importedTlases ++ [tlas] }, tlas)

/-- The in-flight raster-pass builder (`RasterPass::new("Main pass", &mut rg)`,
lib.rs:240); it holds the graph (the `&mut` borrow) until `draw` finalizes. -/
structure RasterPass where
  desc : RasterPassDesc
  graph : RenderGraph
deriving DecidableEq, Repr

def RasterPass.new (name : String) (rg : RenderGraph) : RasterPass :=
  ⟨⟨name, none, none, none⟩, rg⟩

def RasterPass.render_target (p : RasterPass) (target : Nat)
    (l : LoadOp) (s : StoreOp) : RasterPass :=
  { p with desc := { p.desc with renderTarget := some (target, l, s) } }

def RasterPass.tlas (p : RasterPass) (t : Nat) : RasterPass :=
  { p with desc := { p.desc with tlasBinding := some t } }

/-- `.draw(&pipeline, 6, 1)` (lib.rs:243): records the draw call and registers
the finished pass into the graph. -/
def RasterPass.draw (p : RasterPass) (pipeline vertexCount instanceCount : Nat) :
    RenderGraph :=
  { p.graph with
      passes := p.graph.passes ++
        [{ p.desc with drawCall := some (pipeline, vertexCount, instanceCount) }] }

/-- `render_graph.compile(&[&present_image_rg], None)` (lib.rs:282). -/
structure CompiledRenderGraph where
  graph : RenderGraph
deriving DecidableEq, Repr

def RenderGraph.compile (rg : RenderGraph) (_outputs : List Nat)
    (_opts : Option Unit) : CompiledRenderGraph :=
  ⟨rg⟩

/-- The executed graph (`ExecutedRenderGraphSignalFenceWith` in the source):
still holds the persistent store until `release_store` extracts it. -/
structure ExecutedRenderGraph where
  store : RenderGraphPersistentStore
deriving DecidableEq, Repr

/-- `compiled_rg.execute(device, &mut cmd)` (lib.rs:283): records the graph's
commands into the command buffer and returns the executed graph together with
its signal fence (which guards the store this graph used). -/
def CompiledRenderGraph.execute (c : CompiledRenderGraph) (_device : Nat)
    (cmd : CommandBuffer) :
    ExecutedRenderGraph × SignalFence × CommandBuffer :=
  (⟨c.graph.store⟩, ⟨c.graph.store.id⟩, cmd ++ [.rgExec c.graph.passes.length])

/-- `executed_rg.release_store()` (lib.rs:285): detaches the persistent store
from the finished session and hands it back to the frame loop. -/
def ExecutedRenderGraph.release_store (e : ExecutedRenderGraph) :
    RenderGraphPersistentStore :=
  e.store

/-- The shader-database asset as borrowed from the streaming system
(`AssetsShaderDatabase`).  Its pipeline lookup is an oracle. -/
structure AssetsShaderDatabase where
  pipelines : String → Nat

/-- `shader_db.get_pipeline(name)` (lib.rs:239). -/
def AssetsShaderDatabase.get_pipeline (db : AssetsShaderDatabase)
    (name : String) : Nat :=
  db.pipelines name

/-- Swapchain oracle: its reported size, the present image at each index, and
the status its `present` call reports. -/
structure Swapchain where
  width : Nat
  height : Nat
  presentImages : Nat → Nat
  presentStatus : Nat

def Swapchain.size (s : Swapchain) : Nat × Nat := (s.width, s.height)

def Swapchain.present_image (s : Swapchain) (idx : Nat) : Nat :=
  s.presentImages idx

/-- `swapchain.present(&queue, present_index, Some(swapchain_sync))`
(lib.rs:298): presents at the given index gated on the sync primitive and
returns the present status. -/
def Swapchain.present (s : Swapchain) (_queue : Nat) (_idx : Nat)
    (_sync : Option SwapchainSync) : Nat :=
  s.presentStatus

/-- The event received from the windowing layer each iteration
(`RenderLoopEvent`, lib.rs:212-217).  `state` is the platform/input state;
`state.apply(&mut input_processor)` yields `Some` egui context exactly when
an overlay frame opens, modelled by the boolean. -/
structure RenderLoopEvent where
  swapchain : Swapchain
  swapchain_sync : SwapchainSync
  present_index : Nat
  state : Bool

/-- The environment of one frame iteration: the received event plus the
streaming-system responses this iteration observes —
`get_shader_db_cid()` (lib.rs:224) and
`assets.borrow::<AssetsShaderDatabase>(handle)` (lib.rs:227-230). -/
structure FrameEnv where
  event : RenderLoopEvent
  cidResult : Except String Nat
  borrowResult : Option AssetsShaderDatabase

/-- The observable outcome of one completed frame iteration. -/
structure FrameOutput where
  storeIn : Nat
  storeOut : Nat
  graph : RenderGraph
  signalFence : SignalFence
  queueOps : List GpuOp
  statusReported : Nat
  eguiComposited : Bool
deriving DecidableEq, Repr

/-- How one frame iteration ends: hand the store to the next iteration,
propagate an error out of the closure via `?`, or panic on `unwrap`. -/
inductive StepResult where
  | next (store : RenderGraphPersistentStore) (out : FrameOutput)
  | errExit (e : String)
  | panicExit
deriving DecidableEq, Repr

/-- One iteration of the frame loop, lib.rs:219-299.  The `egui` window body
(lib.rs:245-277) only builds overlay UI and is not observable here beyond the
compositing of the overlay into the command buffer (lib.rs:287-291). -/
def frameStep (device queue acceleration_structure : Nat)
    (render_graph_persistent_store : RenderGraphPersistentStore)
    (fe : FrameEnv) : StepResult :=
  let egui := fe.event.state
  match fe.cidResult with
  | .error e => .errExit e
  | .ok _cid =>
    match fe.borrowResult with
    | none => .panicExit
    | some shader_db =>
      let render_graph :=
        RenderGraph.new render_graph_persistent_store fe.event.swapchain.size
      let present_image := fe.event.swapchain.present_image fe.event.present_index
      let (render_graph, present_image_rg) :=
        render_graph.import_texture present_image
      let (render_graph, tlas) := render_graph.import_tlas acceleration_structure
      let pipeline := shader_db.get_pipeline "app-template-raytracer"
      let render_graph :=
        ((((RasterPass.new "Main pass" render_graph).render_target
            present_image_rg LoadOp.Discard StoreOp.Store).tlas tlas).draw
          pipeline 6 1)
      let cmd : CommandBuffer := []
      let compiled_rg := render_graph.compile [present_image_rg] none
      let (executed_rg, signal_fence, cmd) := compiled_rg.execute device cmd
      let store' := executed_rg.release_store
      let cmd := if egui then cmd ++ [.eguiDraw] else cmd
      let submitInfo :=
        (QueueSubmitInfo.swapchain_only_sync fe.event.swapchain_sync).with_render_graph_signal_fence
          signal_fence
      let present_status :=
        fe.event.swapchain.present queue fe.event.present_index
          (some fe.event.swapchain_sync)
      .next store'
        { storeIn := render_graph_persistent_store.id
          storeOut := store'.id
          graph := render_graph
          signalFence := signal_fence
          queueOps :=
            [.submit [cmd] submitInfo,
             .present fe.event.present_index (some fe.event.swapchain_sync)
               present_status]
          statusReported := present_status
          eguiComposited := egui }

/-- How the whole render closure ends: `Ok(())`, `Err(e)` via `?`, or a panic
from `unwrap`. -/
inductive ClosureResult where
  | ok
  | error (e : String)
  | panicked
deriving DecidableEq, Repr

/-- The `while let Ok(..) = event_receiver.receive(..)` loop of lib.rs:212-300
over the remaining frame events; when the list is exhausted the event source
is closed, the loop exits, and the closure returns `Ok(())` (lib.rs:302). -/
def runFrames (device queue acceleration_structure : Nat)
    (store : RenderGraphPersistentStore) (frames : List FrameEnv) :
    ClosureResult × List FrameOutput × RenderGraphPersistentStore :=
  match frames with
  | [] => (.ok, [], store)
  | fe :: rest =>
    match frameStep device queue acceleration_structure store fe with
    | .errExit e => (.error e, [], store)
    | .panicExit => (.panicked, [], store)
    | .next store' out =>
      ((runFrames device queue acceleration_structure store' rest).1,
       out :: (runFrames device queue acceleration_structure store' rest).2.1,
       (runFrames device queue acceleration_structure store' rest).2.2)

/-- The startup poll loop of `init_streaming_system` (lib.rs:66-72): each
iteration calls `streaming_system.update()` and then checks
`shader_db_poller.is_ready()`; `ready k` is the oracle's answer at the k-th
check.  Fuel-indexed unfolding: `some k` means the loop exited after the
check at index `k` observed ready; `none` means the loop is still spinning
after `fuel` iterations. -/
def pollUntilReady (ready : Nat → Bool) : Nat → Nat → Option Nat
  | 0, _ => none
  | fuel + 1, k => if ready k then some k else pollUntilReady ready fuel (k + 1)

/-- `init_streaming_system` (lib.rs:49-74): build the workspace (`?`), request
the shader-db content id (`?`), load the versioned asset, then poll until the
streaming system reports the shader database ready.  Returns `none` when the
poll loop has not exited within `fuel` iterations, otherwise the number of
`update()` calls the poll loop performed, or the propagated error. -/
def init_streaming_system (workspaceResult : Except String Unit)
    (cidResult : Except String Nat) (ready : Nat → Bool) (fuel : Nat) :
    Option (Except String Nat) :=
  match workspaceResult with
  | .error e => some (.error e)
  | .ok _ =>
    match cidResult with
    | .error e => some (.error e)
    | .ok _cid =>
      match pollUntilReady ready fuel 0 with
      | none => none
      | some k => some (.ok (k + 1))

/-- The result of the one-time startup acceleration-structure build,
lib.rs:151-208. -/
structure StartupResult where
  acceleration_structure : Nat
  scratch : Buffer
  cmd : CommandBuffer
  queueOps : List GpuOp

/-- The startup acceleration-structure build, lib.rs:151-208: create the BLAS
and TLAS build requests, allocate one shared scratch buffer sized
`u64::max(blas_scratch, tlas_scratch)`, record the batched BLAS build and
then the TLAS build inside a single acceleration-structure encoder scope of
one command buffer, submit that buffer once with no sync, and block on
`wait_for_idle`. -/
def startupBuild (device : Device) : StartupResult :=
  let blas_request := device.create_blas_build_request
  let tlas_request := device.create_tlas_build_request_from_instances
  let scratch := device.create_buffer "acceleration_structure_scratch"
    (max blas_request.build_info.size_requirements.scratch_size_in_bytes
      tlas_request.build_info.size_requirements.scratch_size_in_bytes)
  let as_enc : List ASCmd := []
  let as_enc := as_enc ++ [.batchBuildBlas 1 scratch]
  let as_enc := as_enc ++ [.buildTlas scratch]
  let cmd : CommandBuffer := [.asScope as_enc]
  { acceleration_structure := tlas_request.tlas
    scratch := scratch
    cmd := cmd
    queueOps := [.submit [cmd] QueueSubmitInfo.no_sync, .waitIdle] }

/-- The full environment of one run of the render closure. -/
structure ClosureEnv where
  deviceId : Nat
  queueId : Nat
  dev : Device
  workspaceResult : Except String Unit
  initCidResult : Except String Nat
  ready : Nat → Bool
  frames : List FrameEnv

/-- The observable outcome of one run of the render closure. -/
structure RunOut where
  result : ClosureResult
  outputs : List FrameOutput
  queueOps : List GpuOp
  finalStore : RenderGraphPersistentStore
deriving DecidableEq, Repr

/-- The render closure of lib.rs:101-303: run `init_streaming_system` (`?` at
lib.rs:105), create the persistent store, perform the startup
acceleration-structure build, then run the frame loop until the event source
closes.  `none` means the startup poll loop has not exited within `fuel`
iterations. -/
def runClosure (env : ClosureEnv) (fuel : Nat) : Option RunOut :=
  match init_streaming_system env.workspaceResult env.initCidResult env.ready fuel with
  | none => none
  | some (.error e) => some ⟨.error e, [], [], ⟨0⟩⟩
  | some (.ok _updates) =>
    let render_graph_persistent_store := RenderGraphPersistentStore.new env.deviceId
    let su := startupBuild env.dev
    let res :=
      runFrames env.deviceId env.queueId su.acceleration_structure
        render_graph_persistent_store env.frames
    some ⟨res.1, res.2.1, su.queueOps ++ res.2.1.flatMap (fun o => o.queueOps), res.2.2⟩

/-- A frame environment on which the iteration completes: the content-id
request succeeds and the shader-database borrow yields the asset. -/
def goodFrame (fe : FrameEnv) : Prop :=
  fe.cidResult.isOk = true ∧ fe.borrowResult.isSome = true

/-- Ownership events of the persistent store, as emitted by each completed
frame iteration: moved into the session at `RenderGraph::new`, released back
to the loop by `release_store`. -/
inductive OwnEv where
  | movedToSession (id : Nat)
  | releasedToLoop (id : Nat)
deriving DecidableEq, Repr

/-- The ownership trace of a list of frame outputs. -/
def ownershipTrace (outs : List FrameOutput) : List OwnEv :=
  outs.flatMap fun o => [.movedToSession o.storeIn, .releasedToLoop o.storeOut]

/-- Checks the single-owner handoff discipline of the persistent store:
starting with the loop holding store `id` and no session in flight
(`held = false`), a move is legal only when no session holds the store and
only of the store the loop holds, and a release only by the holding session
and only of that same store. -/
def ownCheck (held : Bool) (id : Nat) : List OwnEv → Bool
  | [] => true
  | .movedToSession j :: rest => !held && (id == j) && ownCheck true j rest
  | .releasedToLoop j :: rest => held && (id == j) && ownCheck false j rest

/-- Whether a recorded command builds acceleration structures (is an
acceleration-structure encoder scope). -/
def cmdBuildsAS : CmdTok → Bool
  | .asScope _ => true
  | _ => false

/-- Whether a queue operation submits any acceleration-structure build. -/
def opBuildsAS : GpuOp → Bool
  | .submit cmds _ => cmds.any fun cb => cb.any cmdBuildsAS
  | _ => false

/-- The output of one completed frame iteration (the `.next` branch of
`frameStep`) as a function of its inputs; `frameStep` on a frame whose
streaming responses succeed is provably equal to `.next store` of this
record. -/
def goodOutput (acceleration_structure : Nat) (store : RenderGraphPersistentStore)
    (ev : RenderLoopEvent) (db : AssetsShaderDatabase) : FrameOutput :=
  { storeIn := store.id
    storeOut := store.id
    graph :=
      { store := store
        size := ev.swapchain.size
        importedTextures := [ev.swapchain.present_image ev.present_index]
        importedTlases := [acceleration_structure]
        passes := [{ name := "Main pass"
                     renderTarget := some (ev.swapchain.present_image ev.present_index,
                       LoadOp.Discard, StoreOp.Store)
                     tlasBinding := some acceleration_structure
                     drawCall := some (db.get_pipeline "app-template-raytracer", 6, 1) }] }
    signalFence := ⟨store.id⟩
    queueOps :=
      [GpuOp.submit
        [if ev.state then [CmdTok.rgExec 1, CmdTok.eguiDraw] else [CmdTok.rgExec 1]]
        { waitSemaphores := [ev.swapchain_sync.acquireSemaphore]
          signalSemaphores := [ev.swapchain_sync.presentSemaphore]
          renderGraphSignalFence := some ⟨store.id⟩ },
       GpuOp.present ev.present_index (some ev.swapchain_sync)
         ev.swapchain.presentStatus]
    statusReported := ev.swapchain.presentStatus
    eguiComposited := ev.state }

/-! ## Concrete environments

Used to evaluate the model on closed inputs. -/

/-- A concrete device oracle with asymmetric scratch sizes. -/
def device0 : Device := ⟨10, 4, 7, 3, 100, 200⟩

def sync0 : SwapchainSync := ⟨1, 2⟩

def swap0 : Swapchain := ⟨640, 480, fun _ => 9, 0⟩

def ev0 : RenderLoopEvent := ⟨swap0, sync0, 0, false⟩

/-- A frame event with an egui overlay frame open. -/
def ev1 : RenderLoopEvent := ⟨swap0, sync0, 1, true⟩

def db0 : AssetsShaderDatabase := ⟨fun _ => 7⟩

/-- A frame whose streaming responses succeed. -/
def feGood0 : FrameEnv := ⟨ev0, .ok 5, some db0⟩

def feGood1 : FrameEnv := ⟨ev1, .ok 5, some db0⟩

/-- A frame on which the shader-database borrow yields nothing
(lib.rs:227-230 calls `.unwrap()` on this). -/
def feBadBorrow : FrameEnv := ⟨ev0, .ok 5, none⟩

/-- A frame on which `get_shader_db_cid()` fails (lib.rs:224 applies `?`). -/
def feBadCid : FrameEnv := ⟨ev0, .error "shader db cid unavailable", some db0⟩

/-- A streaming system that reports ready from the third poll onward. -/
def readyAt2 : Nat → Bool := fun k => k == 2

def envAllGood : ClosureEnv := ⟨1, 2, device0, .ok (), .ok 5, readyAt2, [feGood0, feGood1]⟩

def envPanic : ClosureEnv :=
  ⟨1, 2, device0, .ok (), .ok 5, readyAt2, [feGood0, feBadBorrow, feGood1]⟩

def envCidErr : ClosureEnv :=
  ⟨1, 2, device0, .ok (), .ok 5, readyAt2, [feGood0, feBadCid, feGood1]⟩

/-! ## Equations and elimination lemmas for the embedding -/

theorem frameStep_err_eq (d q a : Nat) (store : RenderGraphPersistentStore)
    (ev : RenderLoopEvent) (e : String) (borrow : Option AssetsShaderDatabase) :
    frameStep d q a store ⟨ev, .error e, borrow⟩ = .errExit e := rfl

theorem frameStep_panic_eq (d q a : Nat) (store : RenderGraphPersistentStore)
    (ev : RenderLoopEvent) (c : Nat) :
    frameStep d q a store ⟨ev, .ok c, none⟩ = .panicExit := rfl

theorem frameStep_good_eq (d q a : Nat) (store : RenderGraphPersistentStore)
    (ev : RenderLoopEvent) (c : Nat) (db : AssetsShaderDatabase) :
    frameStep d q a store ⟨ev, .ok c, some db⟩ =
      .next store (goodOutput a store ev db) := rfl

theorem frameStep_of_good (d q a : Nat) (store : RenderGraphPersistentStore)
    (fe : FrameEnv) (c : Nat) (db : AssetsShaderDatabase)
    (h1 : fe.cidResult = .ok c) (h2 : fe.borrowResult = some db) :
    frameStep d q a store fe = .next store (goodOutput a store fe.event db) := by
  obtain ⟨ev, cid, borrow⟩ := fe
  obtain rfl : cid = Except.ok c := h1
  obtain rfl : borrow = some db := h2
  rfl

theorem frameStep_next_elim (d q a : Nat) (store store' : RenderGraphPersistentStore)
    (fe : FrameEnv) (o : FrameOutput)
    (h : frameStep d q a store fe = .next store' o) :
    ∃ c db, fe.cidResult = Except.ok c ∧ fe.borrowResult = some db ∧
      store' = store ∧ o = goodOutput a store fe.event db := by
  obtain ⟨ev, cid, borrow⟩ := fe
  cases cid with
  | error e => rw [frameStep_err_eq] at h; simp at h
  | ok c =>
    cases borrow with
    | none => rw [frameStep_panic_eq] at h; simp at h
    | some db =>
      rw [frameStep_good_eq] at h
      injection h with hs ho
      exact ⟨c, db, rfl, rfl, hs.symm, ho.symm⟩

theorem goodFrame_elim (fe : FrameEnv) (h : goodFrame fe) :
    ∃ c db, fe.cidResult = Except.ok c ∧ fe.borrowResult = some db := by
  obtain ⟨h1, h2⟩ := h
  obtain ⟨ev, cid, borrow⟩ := fe
  cases cid with
  | error e => simp [Except.isOk, Except.toBool] at h1
  | ok c =>
    cases borrow with
    | none => simp at h2
    | some db => exact ⟨c, db, rfl, rfl⟩

theorem runFrames_cons_err (d q a : Nat) (store : RenderGraphPersistentStore)
    (fe : FrameEnv) (rest : List FrameEnv) (e : String)
    (h : frameStep d q a store fe = .errExit e) :
    runFrames d q a store (fe :: rest) = (.error e, [], store) := by
  have hbody : runFrames d q a store (fe :: rest) =
      match frameStep d q a store fe with
      | .errExit e => (ClosureResult.error e, [], store)
      | .panicExit => (ClosureResult.panicked, [], store)
      | .next store' out =>
        ((runFrames d q a store' rest).1,
         out :: (runFrames d q a store' rest).2.1,
         (runFrames d q a store' rest).2.2) := rfl
  rw [hbody, h]

theorem runFrames_cons_panic (d q a : Nat) (store : RenderGraphPersistentStore)
    (fe : FrameEnv) (rest : List FrameEnv)
    (h : frameStep d q a store fe = .panicExit) :
    runFrames d q a store (fe :: rest) = (.panicked, [], store) := by
  have hbody : runFrames d q a store (fe :: rest) =
      match frameStep d q a store fe with
      | .errExit e => (ClosureResult.error e, [], store)
      | .panicExit => (ClosureResult.panicked, [], store)
      | .next store' out =>
        ((runFrames d q a store' rest).1,
         out :: (runFrames d q a store' rest).2.1,
         (runFrames d q a store' rest).2.2) := rfl
  rw [hbody, h]

theorem runFrames_cons_next (d q a : Nat) (store : RenderGraphPersistentStore)
    (fe : FrameEnv) (rest : List FrameEnv) (store' : RenderGraphPersistentStore)
    (out : FrameOutput) (h : frameStep d q a store fe = .next store' out) :
    runFrames d q a store (fe :: rest) =
      ((runFrames d q a store' rest).1,
       out :: (runFrames d q a store' rest).2.1,
       (runFrames d q a store' rest).2.2) := by
  have hbody : runFrames d q a store (fe :: rest) =
      match frameStep d q a store fe with
      | .errExit e => (ClosureResult.error e, [], store)
      | .panicExit => (ClosureResult.panicked, [], store)
      | .next store'' out' =>
        ((runFrames d q a store'' rest).1,
         out' :: (runFrames d q a store'' rest).2.1,
         (runFrames d q a store'' rest).2.2) := rfl
  rw [hbody, h]

theorem runFrames_all_good (d q a : Nat) :
    ∀ (frames : List FrameEnv) (store : RenderGraphPersistentStore),
      (∀ fe ∈ frames, goodFrame fe) →
      (runFrames d q a store frames).1 = ClosureResult.ok ∧
      (runFrames d q a store frames).2.1.length = frames.length ∧
      (runFrames d q a store frames).2.2 = store := by
  intro frames
  induction frames with
  | nil => intro store _; exact ⟨rfl, rfl, rfl⟩
  | cons fe rest ih =>
    intro store hg
    obtain ⟨c, db, hc, hb⟩ := goodFrame_elim fe (hg fe (by simp))
    have hstep := frameStep_of_good d q a store fe c db hc hb
    rw [runFrames_cons_next d q a store fe rest store _ hstep]
    obtain ⟨r1, r2, r3⟩ := ih store (fun g hgm => hg g (by simp [hgm]))
    exact ⟨r1, by simp [r2], r3⟩

theorem runFrames_mem (d q a : Nat) :
    ∀ (frames : List FrameEnv) (store : RenderGraphPersistentStore) (o : FrameOutput),
      o ∈ (runFrames d q a store frames).2.1 →
      ∃ fe, fe ∈ frames ∧ ∃ st st', frameStep d q a st fe = .next st' o := by
  intro frames
  induction frames with
  | nil => intro store o ho; simp [runFrames] at ho
  | cons fe rest ih =>
    intro store o ho
    cases hstep : frameStep d q a store fe with
    | errExit e => rw [runFrames_cons_err d q a store fe rest e hstep] at ho; simp at ho
    | panicExit => rw [runFrames_cons_panic d q a store fe rest hstep] at ho; simp at ho
    | next st' out =>
      rw [runFrames_cons_next d q a store fe rest st' out hstep] at ho
      dsimp only at ho
      rcases List.mem_cons.mp ho with rfl | ho'
      · exact ⟨fe, by simp, store, st', hstep⟩
      · obtain ⟨fe', hmem, st, st'', hst⟩ := ih st' o ho'
        exact ⟨fe', by simp [hmem], st, st'', hst⟩

theorem ownershipTrace_cons (o : FrameOutput) (outs : List FrameOutput) :
    ownershipTrace (o :: outs) =
      .movedToSession o.storeIn :: .releasedToLoop o.storeOut :: ownershipTrace outs := rfl

theorem runFrames_ownCheck (d q a : Nat) :
    ∀ (frames : List FrameEnv) (store : RenderGraphPersistentStore),
      ownCheck false store.id (ownershipTrace (runFrames d q a store frames).2.1) = true := by
  intro frames
  induction frames with
  | nil => intro store; rfl
  | cons fe rest ih =>
    intro store
    cases hstep : frameStep d q a store fe with
    | errExit e => rw [runFrames_cons_err d q a store fe rest e hstep]; rfl
    | panicExit => rw [runFrames_cons_panic d q a store fe rest hstep]; rfl
    | next st' out =>
      obtain ⟨c, db, hc, hb, hst, hout⟩ :=
        frameStep_next_elim d q a store st' fe out hstep
      rw [hst] at hstep
      subst hout
      rw [runFrames_cons_next d q a store fe rest store _ hstep]
      dsimp only
      rw [ownershipTrace_cons]
      simp only [ownCheck, goodOutput, Bool.not_false, beq_self_eq_true,
        Bool.and_true, Bool.true_and]
      exact ih store

theorem runFrames_split (d q a : Nat) :
    ∀ (pre : List FrameEnv) (store : RenderGraphPersistentStore) (rest : List FrameEnv),
      (∀ fe ∈ pre, goodFrame fe) →
      (runFrames d q a store (pre ++ rest)).1 = (runFrames d q a store rest).1 ∧
      (runFrames d q a store (pre ++ rest)).2.1.length =
        pre.length + (runFrames d q a store rest).2.1.length := by
  intro pre
  induction pre with
  | nil => intro store rest _; simp
  | cons fe pre' ih =>
    intro store rest hg
    obtain ⟨c, db, hc, hb⟩ := goodFrame_elim fe (hg fe (by simp))
    have hstep := frameStep_of_good d q a store fe c db hc hb
    have hl : (fe :: pre') ++ rest = fe :: (pre' ++ rest) := rfl
    rw [hl, runFrames_cons_next d q a store fe (pre' ++ rest) store _ hstep]
    obtain ⟨h1, h2⟩ := ih store rest (fun g hgm => hg g (by simp [hgm]))
    refine ⟨h1, ?_⟩
    dsimp only
    simp only [List.length_cons, h2]
    omega

theorem goodOutput_ops_clean (a : Nat) (store : RenderGraphPersistentStore)
    (ev : RenderLoopEvent) (db : AssetsShaderDatabase) :
    ∀ op ∈ (goodOutput a store ev db).queueOps,
      op ≠ GpuOp.waitIdle ∧ opBuildsAS op = false := by
  intro op hop
  simp only [goodOutput, List.mem_cons, List.not_mem_nil, or_false] at hop
  rcases hop with rfl | rfl
  · refine ⟨by simp, ?_⟩
    cases hst : ev.state <;> rfl
  · exact ⟨by simp, rfl⟩

theorem runClosure_none (env : ClosureEnv) (fuel : Nat)
    (h : init_streaming_system env.workspaceResult env.initCidResult env.ready fuel = none) :
    runClosure env fuel = none := by
  unfold runClosure; rw [h]

theorem runClosure_err (env : ClosureEnv) (fuel : Nat) (e : String)
    (h : init_streaming_system env.workspaceResult env.initCidResult env.ready fuel =
      some (.error e)) :
    runClosure env fuel = some ⟨.error e, [], [], ⟨0⟩⟩ := by
  unfold runClosure; rw [h]

theorem runClosure_ok (env : ClosureEnv) (fuel n : Nat)
    (h : init_streaming_system env.workspaceResult env.initCidResult env.ready fuel =
      some (.ok n)) :
    runClosure env fuel =
      some ⟨(runFrames env.deviceId env.queueId
              (startupBuild env.dev).acceleration_structure
              (RenderGraphPersistentStore.new env.deviceId) env.frames).1,
            (runFrames env.deviceId env.queueId
              (startupBuild env.dev).acceleration_structure
              (RenderGraphPersistentStore.new env.deviceId) env.frames).2.1,
            (startupBuild env.dev).queueOps ++
              (runFrames env.deviceId env.queueId
                (startupBuild env.dev).acceleration_structure
                (RenderGraphPersistentStore.new env.deviceId) env.frames).2.1.flatMap
                (fun o => o.queueOps),
            (runFrames env.deviceId env.queueId
              (startupBuild env.dev).acceleration_structure
              (RenderGraphPersistentStore.new env.deviceId) env.frames).2.2⟩ := by
  unfold runClosure; rw [h]

theorem pollUntilReady_ready (ready : Nat → Bool) :
    ∀ (fuel start k : Nat), pollUntilReady ready fuel start = some k → ready k = true := by
  intro fuel
  induction fuel with
  | zero => intro start k h; exact Option.noConfusion h
  | succ f ih =>
    intro start k h
    simp only [pollUntilReady] at h
    split at h
    · injection h with h'; subst h'; assumption
    · exact ih (start + 1) k h

theorem pollUntilReady_exits (ready : Nat → Bool) :
    ∀ (fuel start j : Nat), j < fuel → ready (start + j) = true →
      ∃ k, pollUntilReady ready fuel start = some k ∧ k ≤ start + j := by
  intro fuel
  induction fuel with
  | zero => intro start j hj _; exact absurd hj (Nat.not_lt_zero j)
  | succ f ih =>
    intro start j hj hr
    simp only [pollUntilReady]
    split
    · exact ⟨start, rfl, by omega⟩
    · rcases j with _ | j'
      · rw [Nat.add_zero] at hr; simp_all
      · obtain ⟨k, hk, hkle⟩ := ih (start + 1) j' (by omega)
          (by rw [show start + 1 + j' = start + (j' + 1) by omega]; exact hr)
        exact ⟨k, hk, by omega⟩

theorem pollUntilReady_constFalse :
    ∀ (fuel start : Nat), pollUntilReady (fun _ => false) fuel start = none := by
  intro fuel
  induction fuel with
  | zero => intro start; rfl
  | succ f ih => intro start; simp only [pollUntilReady]; simpa using ih (start + 1)

theorem init_ok_elim (ws : Except String Unit) (cid : Except String Nat)
    (ready : Nat → Bool) (fuel n : Nat)
    (h : init_streaming_system ws cid ready fuel = some (.ok n)) :
    ∃ k, pollUntilReady ready fuel 0 = some k ∧ n = k + 1 ∧ ready k = true := by
  unfold init_streaming_system at h
  cases ws with
  | error e => simp at h
  | ok u =>
    cases cid with
    | error e => simp at h
    | ok c =>
      cases hp : pollUntilReady ready fuel 0 with
      | none => rw [hp] at h; simp at h
      | some k =>
        rw [hp] at h
        simp only [Option.some.injEq, Except.ok.injEq] at h
        exact ⟨k, rfl, h.symm, pollUntilReady_ready ready fuel 0 k hp⟩

theorem frameStep_of_err (d q a : Nat) (store : RenderGraphPersistentStore)
    (fe : FrameEnv) (e : String) (h : fe.cidResult = Except.error e) :
    frameStep d q a store fe = .errExit e := by
  obtain ⟨ev, cid, borrow⟩ := fe
  obtain rfl : cid = Except.error e := h
  rfl

theorem frameStep_of_panic (d q a : Nat) (store : RenderGraphPersistentStore)
    (fe : FrameEnv) (c : Nat) (h1 : fe.cidResult = Except.ok c)
    (h2 : fe.borrowResult = none) :
    frameStep d q a store fe = .panicExit := by
  obtain ⟨ev, cid, borrow⟩ := fe
  obtain rfl : cid = Except.ok c := h1
  obtain rfl : borrow = (none : Option AssetsShaderDatabase) := h2
  rfl

/-! ## Claims -/

/-- Claim C1, counterexample: the claim as stated ("a per-frame failure does
not terminate the frame loop; the loop skips the draw and continues") is
false at a concrete input: with a good frame followed by a frame whose
shader-database borrow yields no result and then another good frame, the run
does not continue past the bad frame — the `unwrap` of lib.rs:230 panics,
and only 1 of the 3 frames is processed. -/
theorem C1_counterexample :
    (runClosure envPanic 5).map (fun o => (o.result, o.outputs.length)) =
      some (ClosureResult.panicked, 1) := by
  rfl

/-- Claim C1, amended: a per-frame shader-database borrow failure terminates
the frame loop rather than degrading gracefully: in any run whose
initialization succeeded, if the frames before some event all completed and
on that event `assets.borrow` yields no result, the `unwrap` of lib.rs:230
panics — the run ends `panicked` and no further frame is processed. -/
theorem C1_borrow_failure_panics (env : ClosureEnv) (fuel n : Nat) (out : RunOut)
    (pre post : List FrameEnv) (fe : FrameEnv) (c : Nat)
    (hinit : init_streaming_system env.workspaceResult env.initCidResult
      env.ready fuel = some (.ok n))
    (hrun : runClosure env fuel = some out)
    (hframes : env.frames = pre ++ fe :: post)
    (hpre : ∀ g ∈ pre, goodFrame g)
    (hcid : fe.cidResult = Except.ok c)
    (hborrow : fe.borrowResult = none) :
    out.result = ClosureResult.panicked ∧ out.outputs.length = pre.length := by
  rw [runClosure_ok env fuel n hinit] at hrun
  injection hrun with hout
  subst hout
  dsimp only
  rw [hframes]
  obtain ⟨hres, hlen⟩ :=
    runFrames_split env.deviceId env.queueId
      (startupBuild env.dev).acceleration_structure pre
      (RenderGraphPersistentStore.new env.deviceId) (fe :: post) hpre
  rw [runFrames_cons_panic env.deviceId env.queueId
      (startupBuild env.dev).acceleration_structure
      (RenderGraphPersistentStore.new env.deviceId) fe post
      (frameStep_of_panic _ _ _ _ fe c hcid hborrow)] at hres hlen
  constructor
  · rw [hres]
  · rw [hlen]; simp

/-- Claim C1, witness for the amended statement: in the concrete run of
`C1_counterexample`, the frame whose borrow fails ends the run in a panic
with exactly the one earlier frame processed. -/
theorem C1_witness :
    ∃ out, runClosure envPanic 5 = some out ∧
      out.result = ClosureResult.panicked ∧ out.outputs.length = 1 := by
  obtain ⟨out, hout⟩ : ∃ out, runClosure envPanic 5 = some out := ⟨_, rfl⟩
  obtain ⟨h1, h2⟩ := C1_borrow_failure_panics envPanic 5 3 out
    [feGood0] [feGood1] feBadBorrow 5 rfl hout rfl
    (by intro g hg; rw [List.mem_singleton] at hg; subst hg; exact ⟨rfl, rfl⟩)
    rfl rfl
  exact ⟨out, hout, h1, by rw [h2]; rfl⟩

/-- Claim C2 (confirmed): the persistent store is handed off linearly: in any
run, the ownership trace of the frame outputs (store moved into the session
at `RenderGraph::new`, released back by `release_store`) passes the
single-owner check seeded with the one store created before the loop — a
session only ever receives the store the loop holds, no move happens while a
session holds it, each release returns the moved store, and the released
store is the one the next iteration moves; and each session releases exactly
the store it received. -/
theorem C2_store_exclusive_handoff (env : ClosureEnv) (fuel : Nat) (out : RunOut)
    (hrun : runClosure env fuel = some out) :
    ownCheck false (RenderGraphPersistentStore.new env.deviceId).id
        (ownershipTrace out.outputs) = true ∧
    ∀ o ∈ out.outputs, o.storeIn = o.storeOut := by
  cases hinit : init_streaming_system env.workspaceResult env.initCidResult
      env.ready fuel with
  | none => rw [runClosure_none env fuel hinit] at hrun; exact absurd hrun (by simp)
  | some r =>
    cases r with
    | error e =>
      rw [runClosure_err env fuel e hinit] at hrun
      injection hrun with hout
      subst hout
      exact ⟨rfl, by intro o ho; simp at ho⟩
    | ok n =>
      rw [runClosure_ok env fuel n hinit] at hrun
      injection hrun with hout
      subst hout
      constructor
      · exact runFrames_ownCheck env.deviceId env.queueId
          (startupBuild env.dev).acceleration_structure env.frames
          (RenderGraphPersistentStore.new env.deviceId)
      · intro o ho
        obtain ⟨fe, hfe, st, st', hstep⟩ := runFrames_mem env.deviceId env.queueId
          (startupBuild env.dev).acceleration_structure env.frames
          (RenderGraphPersistentStore.new env.deviceId) o ho
        obtain ⟨c, db, hc, hb, hst, hout'⟩ :=
          frameStep_next_elim _ _ _ st st' fe o hstep
        subst hout'
        rfl

/-- Claim C2, witness: the handoff theorem applied to a concrete two-frame
run. -/
theorem C2_witness :
    ∃ out, runClosure envAllGood 5 = some out ∧
      ownCheck false (RenderGraphPersistentStore.new envAllGood.deviceId).id
        (ownershipTrace out.outputs) = true ∧
      ∀ o ∈ out.outputs, o.storeIn = o.storeOut := by
  obtain ⟨out, hout⟩ : ∃ out, runClosure envAllGood 5 = some out := ⟨_, rfl⟩
  obtain ⟨h1, h2⟩ := C2_store_exclusive_handoff envAllGood 5 out hout
  exact ⟨out, hout, h1, h2⟩

/-- Claim C3 (confirmed): the shared scratch buffer created at startup
(lib.rs:181-194) has size exactly the maximum of the BLAS request's and the
TLAS request's scratch-size requirements — at least each of them and equal
to one of them — for every pair of device-reported sizes, so neither size is
assumed to dominate the other. -/
theorem C3_scratch_sized_to_max (device : Device) :
    (startupBuild device).scratch.size_in_bytes =
      max device.create_blas_build_request.build_info.size_requirements.scratch_size_in_bytes
        device.create_tlas_build_request_from_instances.build_info.size_requirements.scratch_size_in_bytes ∧
    device.create_blas_build_request.build_info.size_requirements.scratch_size_in_bytes ≤
      (startupBuild device).scratch.size_in_bytes ∧
    device.create_tlas_build_request_from_instances.build_info.size_requirements.scratch_size_in_bytes ≤
      (startupBuild device).scratch.size_in_bytes ∧
    ((startupBuild device).scratch.size_in_bytes =
        device.create_blas_build_request.build_info.size_requirements.scratch_size_in_bytes ∨
      (startupBuild device).scratch.size_in_bytes =
        device.create_tlas_build_request_from_instances.build_info.size_requirements.scratch_size_in_bytes) :=
  ⟨rfl, le_max_left _ _, le_max_right _ _, max_choice _ _⟩

/-- Claim C4 (confirmed): the streaming system reports ready for the shader
database before the first frame: whenever a run of the render closure
produced any frame output, the startup poll loop of `init_streaming_system`
(sequenced strictly before the frame loop) had exited with `is_ready()`
observed true; no frame is constructed while the shader database is not yet
ready at startup. -/
theorem C4_ready_gates_first_frame (env : ClosureEnv) (fuel : Nat) (out : RunOut)
    (hrun : runClosure env fuel = some out) (hframes : out.outputs ≠ []) :
    ∃ k, pollUntilReady env.ready fuel 0 = some k ∧ env.ready k = true ∧
      init_streaming_system env.workspaceResult env.initCidResult env.ready fuel =
        some (.ok (k + 1)) := by
  cases hinit : init_streaming_system env.workspaceResult env.initCidResult
      env.ready fuel with
  | none => rw [runClosure_none env fuel hinit] at hrun; exact absurd hrun (by simp)
  | some r =>
    cases r with
    | error e =>
      rw [runClosure_err env fuel e hinit] at hrun
      injection hrun with hout
      subst hout
      exact absurd rfl hframes
    | ok n =>
      obtain ⟨k, hp, hn, hr⟩ := init_ok_elim _ _ _ _ _ hinit
      refine ⟨k, hp, hr, ?_⟩
      rw [hn]

/-- Claim C4, witness: a run with a streaming system that reports ready at
poll index 2 and two good frames. -/
theorem C4_witness :
    ∃ out, runClosure envAllGood 5 = some out ∧ out.outputs ≠ [] ∧
      ∃ k, pollUntilReady envAllGood.ready 5 0 = some k ∧
        envAllGood.ready k = true := by
  have h := C4_ready_gates_first_frame envAllGood 5 _ rfl (by decide)
  exact ⟨_, rfl, by decide, h.imp fun k hk => ⟨hk.1, hk.2.1⟩⟩

/-- Claim C5 (confirmed): in the one-time startup build (lib.rs:196-208) the
batched BLAS build is encoded before the TLAS build, both inside the single
acceleration-structure scope of one command buffer; in any run whose
initialization succeeded, that command buffer is the first queue submission
(with no sync), followed immediately by the blocking wait-for-idle, and no
later queue operation waits for idle or submits any acceleration-structure
build — the startup buffer is submitted exactly once and the wait completes
before the frame loop's submissions begin. -/
theorem C5_startup_build_once_before_loop (env : ClosureEnv) (fuel n : Nat)
    (out : RunOut)
    (hinit : init_streaming_system env.workspaceResult env.initCidResult
      env.ready fuel = some (.ok n))
    (hrun : runClosure env fuel = some out) :
    (startupBuild env.dev).cmd =
      [CmdTok.asScope [ASCmd.batchBuildBlas 1 (startupBuild env.dev).scratch,
        ASCmd.buildTlas (startupBuild env.dev).scratch]] ∧
    ∃ rest,
      out.queueOps =
        GpuOp.submit [(startupBuild env.dev).cmd] QueueSubmitInfo.no_sync ::
          GpuOp.waitIdle :: rest ∧
      ∀ op ∈ rest, op ≠ GpuOp.waitIdle ∧ opBuildsAS op = false := by
  rw [runClosure_ok env fuel n hinit] at hrun
  injection hrun with hout
  subst hout
  refine ⟨rfl, (runFrames env.deviceId env.queueId
    (startupBuild env.dev).acceleration_structure
    (RenderGraphPersistentStore.new env.deviceId) env.frames).2.1.flatMap
      (fun o => o.queueOps), rfl, ?_⟩
  intro op hop
  rw [List.mem_flatMap] at hop
  obtain ⟨o, ho, hop⟩ := hop
  obtain ⟨fe, hfe, st, st', hstep⟩ := runFrames_mem env.deviceId env.queueId
    (startupBuild env.dev).acceleration_structure env.frames
    (RenderGraphPersistentStore.new env.deviceId) o ho
  obtain ⟨c, db, hc, hb, hst, hout'⟩ := frameStep_next_elim _ _ _ st st' fe o hstep
  subst hout'
  exact goodOutput_ops_clean _ _ _ _ op hop

/-- Claim C5, witness: the startup-ordering theorem applied to a concrete
run. -/
theorem C5_witness :
    ∃ out rest, runClosure envAllGood 5 = some out ∧
      (startupBuild envAllGood.dev).cmd =
        [CmdTok.asScope [ASCmd.batchBuildBlas 1 (startupBuild envAllGood.dev).scratch,
          ASCmd.buildTlas (startupBuild envAllGood.dev).scratch]] ∧
      out.queueOps =
        GpuOp.submit [(startupBuild envAllGood.dev).cmd] QueueSubmitInfo.no_sync ::
          GpuOp.waitIdle :: rest ∧
      ∀ op ∈ rest, op ≠ GpuOp.waitIdle ∧ opBuildsAS op = false := by
  obtain ⟨out, hout⟩ : ∃ out, runClosure envAllGood 5 = some out := ⟨_, rfl⟩
  obtain ⟨hcmd, rest, hops, hclean⟩ :=
    C5_startup_build_once_before_loop envAllGood 5 3 out rfl hout
  exact ⟨out, rest, hout, hcmd, hops, hclean⟩

/-- Claim C6, counterexample: the claim as stated ("for every execution
reaching the poll loop, the loop eventually exits") is false on the code:
against a streaming system whose `is_ready()` never returns true, the
startup poll loop of `init_streaming_system` never exits — no number of
iterations makes `pollUntilReady` return. -/
theorem C6_counterexample :
    ¬ ∃ fuel k, pollUntilReady (fun _ => false) fuel 0 = some k := by
  rintro ⟨fuel, k, h⟩
  rw [pollUntilReady_constFalse fuel 0] at h
  exact Option.noConfusion h

/-- Claim C6, amended: the startup poll loop terminates provided the
streaming system eventually reports ready: if `is_ready()` is true at some
poll index `n`, the loop exits within `n + 1` iterations, at an index no
later than `n`, having observed ready true. -/
theorem C6_poll_terminates_when_eventually_ready (ready : Nat → Bool) (n : Nat)
    (h : ready n = true) :
    ∃ k, k ≤ n ∧ pollUntilReady ready (n + 1) 0 = some k ∧ ready k = true := by
  obtain ⟨k, hk, hkle⟩ := pollUntilReady_exits ready (n + 1) 0 n (by omega)
    (by rw [Nat.zero_add]; exact h)
  exact ⟨k, by omega, hk, pollUntilReady_ready ready (n + 1) 0 k hk⟩

/-- Claim C6, witness for the amended statement: a streaming system that
reports ready at poll index 2. -/
theorem C6_witness :
    ∃ k, k ≤ 2 ∧ pollUntilReady readyAt2 3 0 = some k ∧ readyAt2 k = true :=
  C6_poll_terminates_when_eventually_ready readyAt2 2 rfl

/-- Claim C7 (confirmed): every completed frame iteration submits its command
buffer waiting on the acquire semaphore and signaling the present semaphore
of the received swapchain sync primitive, with the render graph's own signal
fence (the one this frame's `execute` returned) additionally attached; it
then presents at the received present index gated on that same sync
primitive, and the status the present call returned is reported back to the
event receiver. -/
theorem C7_submit_present_sync (d q a : Nat)
    (store store' : RenderGraphPersistentStore) (fe : FrameEnv) (o : FrameOutput)
    (h : frameStep d q a store fe = .next store' o) :
    o.queueOps =
      [GpuOp.submit
        [if fe.event.state then [CmdTok.rgExec 1, CmdTok.eguiDraw]
         else [CmdTok.rgExec 1]]
        { waitSemaphores := [fe.event.swapchain_sync.acquireSemaphore]
          signalSemaphores := [fe.event.swapchain_sync.presentSemaphore]
          renderGraphSignalFence := some o.signalFence },
       GpuOp.present fe.event.present_index (some fe.event.swapchain_sync)
         fe.event.swapchain.presentStatus] ∧
    o.statusReported = fe.event.swapchain.presentStatus := by
  obtain ⟨c, db, hc, hb, hst, hout⟩ := frameStep_next_elim d q a store store' fe o h
  subst hout
  exact ⟨rfl, rfl⟩

/-- Claim C7, witness: a concrete completed frame iteration (with the egui
overlay open), with its submit and present operations evaluated. -/
theorem C7_witness :
    ∃ store' o, frameStep 1 2 200 ⟨0⟩ feGood1 = .next store' o ∧
      o.queueOps =
        [GpuOp.submit [[CmdTok.rgExec 1, CmdTok.eguiDraw]]
          { waitSemaphores := [1], signalSemaphores := [2],
            renderGraphSignalFence := some o.signalFence },
         GpuOp.present 1 (some sync0) 0] ∧
      o.statusReported = 0 := by
  obtain ⟨store', o, h⟩ :
      ∃ s o, frameStep 1 2 200 ⟨0⟩ feGood1 = StepResult.next s o := ⟨_, _, rfl⟩
  obtain ⟨h1, h2⟩ := C7_submit_present_sync 1 2 200 ⟨0⟩ store' feGood1 o h
  refine ⟨store', o, h, ?_, ?_⟩
  · rw [h1]; rfl
  · rw [h2]; rfl

/-- Claim C8 (confirmed): closure of the frame event source is normal
shutdown: in any run whose initialization succeeded and whose received
frames all completed, the `while let` loop exits when the receiver stops
yielding `Ok` and the render closure returns `Ok(())` — result `ok`, with
every received frame processed. -/
theorem C8_source_close_normal_shutdown (env : ClosureEnv) (fuel n : Nat)
    (out : RunOut)
    (hinit : init_streaming_system env.workspaceResult env.initCidResult
      env.ready fuel = some (.ok n))
    (hgood : ∀ fe ∈ env.frames, goodFrame fe)
    (hrun : runClosure env fuel = some out) :
    out.result = ClosureResult.ok ∧ out.outputs.length = env.frames.length := by
  rw [runClosure_ok env fuel n hinit] at hrun
  injection hrun with hout
  subst hout
  obtain ⟨h1, h2, h3⟩ := runFrames_all_good env.deviceId env.queueId
    (startupBuild env.dev).acceleration_structure env.frames
    (RenderGraphPersistentStore.new env.deviceId) hgood
  exact ⟨h1, h2⟩

/-- Claim C8, witness: a concrete two-frame run whose event source then
closes; the closure returns ok having processed both frames. -/
theorem C8_witness :
    ∃ out, runClosure envAllGood 5 = some out ∧
      out.result = ClosureResult.ok ∧ out.outputs.length = 2 := by
  obtain ⟨out, hout⟩ : ∃ out, runClosure envAllGood 5 = some out := ⟨_, rfl⟩
  obtain ⟨h1, h2⟩ := C8_source_close_normal_shutdown envAllGood 5 3 out rfl
    (by intro fe hfe
        simp only [envAllGood, List.mem_cons, List.not_mem_nil, or_false] at hfe
        rcases hfe with rfl | rfl
        · exact ⟨rfl, rfl⟩
        · exact ⟨rfl, rfl⟩)
    hout
  exact ⟨out, hout, h1, by rw [h2]; rfl⟩

/-- Claim C9 (confirmed): every completed frame iteration imports exactly the
current swapchain present image (at the received present index) and the
startup-built acceleration structure, and declares exactly one raster pass:
named "Main pass", rendering to the imported present image with
`LoadOp::Discard` and `StoreOp::Store`, binding the imported TLAS and the
pipeline looked up by name `"app-template-raytracer"` from the borrowed
shader-database snapshot, and drawing 6 vertices and 1 instance. -/
theorem C9_single_raster_pass (d q a : Nat)
    (store store' : RenderGraphPersistentStore) (fe : FrameEnv) (o : FrameOutput)
    (h : frameStep d q a store fe = .next store' o) :
    ∃ db, fe.borrowResult = some db ∧
      o.graph.importedTextures =
        [fe.event.swapchain.present_image fe.event.present_index] ∧
      o.graph.importedTlases = [a] ∧
      o.graph.passes =
        [{ name := "Main pass"
           renderTarget := some (fe.event.swapchain.present_image fe.event.present_index,
             LoadOp.Discard, StoreOp.Store)
           tlasBinding := some a
           drawCall := some (db.get_pipeline "app-template-raytracer", 6, 1) }] := by
  obtain ⟨c, db, hc, hb, hst, hout⟩ := frameStep_next_elim d q a store store' fe o h
  subst hout
  exact ⟨db, hb, rfl, rfl, rfl⟩

/-- Claim C9, witness: a concrete completed frame iteration with the imports
and the single pass evaluated (present image 9, TLAS 200, pipeline 7). -/
theorem C9_witness :
    ∃ store' o, frameStep 1 2 200 ⟨0⟩ feGood0 = .next store' o ∧
      o.graph.importedTextures = [9] ∧ o.graph.importedTlases = [200] ∧
      o.graph.passes =
        [{ name := "Main pass"
           renderTarget := some (9, LoadOp.Discard, StoreOp.Store)
           tlasBinding := some 200
           drawCall := some (7, 6, 1) }] := by
  obtain ⟨store', o, h⟩ :
      ∃ s o, frameStep 1 2 200 ⟨0⟩ feGood0 = StepResult.next s o := ⟨_, _, rfl⟩
  obtain ⟨db, hdb, h1, h2, h3⟩ := C9_single_raster_pass 1 2 200 ⟨0⟩ store' feGood0 o h
  have h4 : some db = some db0 := hdb.symm
  injection h4 with h5
  subst h5
  refine ⟨store', o, h, ?_, ?_, ?_⟩
  · rw [h1]; rfl
  · rw [h2]
  · rw [h3]; rfl

/-- Claim C10 (confirmed): a `get_shader_db_cid()` failure inside the frame
loop propagates out of the closure via `?` (lib.rs:224): in any run whose
initialization succeeded, if the frames before some event all completed and
on that event the content-id request fails with `e`, the whole render
closure returns `Err(e)` — the loop terminates with exactly the earlier
frames processed, not a skipped frame. -/
theorem C10_cid_error_propagates (env : ClosureEnv) (fuel n : Nat) (out : RunOut)
    (pre post : List FrameEnv) (fe : FrameEnv) (e : String)
    (hinit : init_streaming_system env.workspaceResult env.initCidResult
      env.ready fuel = some (.ok n))
    (hrun : runClosure env fuel = some out)
    (hframes : env.frames = pre ++ fe :: post)
    (hpre : ∀ g ∈ pre, goodFrame g)
    (hcid : fe.cidResult = Except.error e) :
    out.result = ClosureResult.error e ∧ out.outputs.length = pre.length := by
  rw [runClosure_ok env fuel n hinit] at hrun
  injection hrun with hout
  subst hout
  dsimp only
  rw [hframes]
  obtain ⟨hres, hlen⟩ :=
    runFrames_split env.deviceId env.queueId
      (startupBuild env.dev).acceleration_structure pre
      (RenderGraphPersistentStore.new env.deviceId) (fe :: post) hpre
  rw [runFrames_cons_err env.deviceId env.queueId
      (startupBuild env.dev).acceleration_structure
      (RenderGraphPersistentStore.new env.deviceId) fe post e
      (frameStep_of_err _ _ _ _ fe e hcid)] at hres hlen
  constructor
  · rw [hres]
  · rw [hlen]; simp

/-- Claim C10, witness: a concrete run with a good frame, then a frame whose
content-id request fails, then another good frame: the closure returns that
error with exactly one frame processed. -/
theorem C10_witness :
    ∃ out, runClosure envCidErr 5 = some out ∧
      out.result = ClosureResult.error "shader db cid unavailable" ∧
      out.outputs.length = 1 := by
  obtain ⟨out, hout⟩ : ∃ out, runClosure envCidErr 5 = some out := ⟨_, rfl⟩
  obtain ⟨h1, h2⟩ := C10_cid_error_propagates envCidErr 5 3 out
    [feGood0] [feGood1] feBadCid "shader db cid unavailable" rfl hout rfl
    (by intro g hg; rw [List.mem_singleton] at hg; subst hg; exact ⟨rfl, rfl⟩)
    rfl
  exact ⟨out, hout, h1, by rw [h2]; rfl⟩
